import Mathlib

/-
  Verification development for the deebot-t8 client library.

  The definitions below are a shallow embedding of the state
  synchronization core of the library: the per-device state snapshot
  (`VacuumState` in entity.py), its change-notifying attribute setter
  (`VacuumState.__setattr__`), the event dispatchers
  (`DeebotEntity.handle_mqtt_message` / `DeebotEntity.handle_command`),
  the command execution failure counter (`DeebotEntity.exc_command`),
  the observer registry (`DeebotEntity.subscribe` / `unsubscribe`),
  and the push channel manager (`SubscriptionClient`).

  Conventions used throughout:
  * Python JSON values are modelled by the inductive `Json`.  A string
    whose text happens to be a JSON document is modelled as
    `Json.serialized j` (the parse of the text being `j`); a byte/string
    payload that is not valid JSON is modelled as `Json.malformed`.
    `jsonLoads` models `json.loads` on such values.
  * Python exceptions (KeyError / TypeError / JSONDecodeError) raised
    while handling an event are modelled with `Except`; because the
    Python code mutates `self.state` in place, the `error` branch
    carries the state as mutated up to the point of the raise.
  * Machine integers are modelled as `Int` (no overflow is relevant).
-/

namespace DeebotT8

/-- Model of a Python/JSON value as handled by the library.
`serialized j` is a string whose text is a JSON document parsing to `j`;
`malformed` is a (nonempty) string/bytes payload that is not valid JSON. -/
inductive Json where
  | null
  | b (v : Bool)
  | i (v : Int)
  | s (v : String)
  | arr (xs : List Json)
  | obj (kvs : List (String × Json))
  | serialized (j : Json)
  | malformed

/-- Python subscript `j[k]` with a string key: succeeds only on a dict
that has the key (otherwise KeyError / TypeError). -/
def Json.get (j : Json) (k : String) : Except Unit Json :=
  match j with
  | .obj kvs =>
    match kvs.lookup k with
    | some v => .ok v
    | none => .error ()
  | _ => .error ()

/-- Python truthiness `bool(v)` of a JSON value.  (`serialized`/`malformed`
model nonempty strings, hence truthy.) -/
def Json.truthy : Json → Bool
  | .null => false
  | .b v => v
  | .i v => v != 0
  | .s v => v ≠ ""
  | .arr xs => ¬xs.isEmpty
  | .obj kvs => ¬kvs.isEmpty
  | .serialized _ => true
  | .malformed => true

/-- A Python value usable as an `int`-keyed dict key: `True`/`False` hash
equal to `1`/`0`, so the lookup tables in entity.py accept them too. -/
def Json.intKey : Json → Option Int
  | .i v => some v
  | .b v => some (if v then 1 else 0)
  | _ => none

/-- Model of `json.loads` applied to a value extracted from a message:
only a string whose text is a JSON document parses; anything else raises
(TypeError for non-strings, JSONDecodeError for non-JSON text). -/
def jsonLoads : Json → Except Unit Json
  | .serialized j => .ok j
  | _ => .error ()

/-- Does `pat` occur as an initial run of `hay`? (helper for Python
substring membership) -/
def leadEq : List Char → List Char → Bool
  | [], _ => true
  | _ :: _, [] => false
  | a :: as, b :: bs => a = b && leadEq as bs

/-- Does `pat` occur contiguously inside `hay`? (helper for Python
substring membership) -/
def hasSeg (pat : List Char) : List Char → Bool
  | [] => leadEq pat []
  | hay@(_ :: rest) => leadEq pat hay || hasSeg pat rest

/-- Python `k in j` for a string `k`: key membership on dicts, element
membership on lists, substring on strings, TypeError otherwise.  The raw
text of `serialized`/`malformed` strings is not modelled, so membership
over them is also mapped to the error case. -/
def Json.pyContains (j : Json) (k : String) : Except Unit Bool :=
  match j with
  | .obj kvs => .ok (kvs.lookup k).isSome
  | .arr xs =>
    .ok (xs.any fun x => match x with | .s v => v = k | _ => false)
  | .s v => .ok (hasSeg k.toList v.toList)
  | _ => .error ()

/-- Python `for x in j`: lists yield elements, dicts yield their keys,
strings yield one-character strings; other values raise TypeError.  The
text of `serialized`/`malformed` strings is not modelled, so iterating
them is mapped to the error case as well. -/
def Json.pyIter : Json → Except Unit (List Json)
  | .arr xs => .ok xs
  | .obj kvs => .ok (kvs.map (fun kv => .s kv.1))
  | .s v => .ok (v.toList.map (fun c => .s (String.mk [c])))
  | _ => .error ()

/-- VacuumState.Speed (entity.py). -/
inductive Speed where
  | QUIET | STANDARD | MAX | MAX_PLUS
deriving DecidableEq

/-- VacuumState.WaterFlow (entity.py). -/
inductive WaterFlow where
  | LOW | MEDIUM | HIGH | ULTRA_HIGH
deriving DecidableEq

/-- VacuumState.RobotState (entity.py). -/
inductive RobotState where
  | IDLE | CLEANING | PAUSED | RETURNING
deriving DecidableEq

/-- VacuumState.CleanType (entity.py). -/
inductive CleanType where
  | AUTO | SPOT_AREA | CUSTOM_AREA
deriving DecidableEq

/-- ComponentLifeSpan dataclass (entity.py).  The payload fields are
stored verbatim from the wire, hence `Json`. -/
structure ComponentLifeSpan where
  component : Json
  total : Json
  left : Json

/-- TotalStats dataclass (entity.py). -/
structure TotalStats where
  area : Json
  time : Json
  count : Json

/-- CleanStats dataclass (entity.py). -/
structure CleanStats where
  area : Json
  time : Json
  avoid_count : Json
  start_time : Json

/-- VacuumState dataclass (entity.py): the canonical state snapshot.
Every field is `None` until first observed; fields assigned verbatim
wire values are typed `Json`, fields passed through a lookup table or
`bool()` carry the corresponding domain type. -/
structure VacuumState where
  is_online : Option Bool := none
  firmware_version : Option Json := none
  hardware_version : Option Json := none
  state : Option RobotState := none
  clean_type : Option CleanType := none
  clean_stats : Option CleanStats := none
  battery_level : Option Json := none
  is_charging : Option Bool := none
  mop_attached : Option Bool := none
  water_level : Option WaterFlow := none
  vacuum_speed : Option Speed := none
  clean_count : Option Json := none
  cleaning_preference_enabled : Option Bool := none
  true_detect_enabled : Option Bool := none
  auto_boost_suction_enabled : Option Bool := none
  auto_empty_enabled : Option Bool := none
  lifespan : Option (List ComponentLifeSpan) := none
  total_stats : Option TotalStats := none

/-- Identifier of a VacuumState field (the `key` string passed to
`__setattr__` and on to the change callback). -/
inductive Field where
  | is_online | firmware_version | hardware_version
  | state | clean_type | clean_stats
  | battery_level | is_charging
  | mop_attached | water_level
  | vacuum_speed | clean_count
  | cleaning_preference_enabled | true_detect_enabled
  | auto_boost_suction_enabled | auto_empty_enabled
  | lifespan | total_stats
deriving DecidableEq

/-- The type of values stored in each VacuumState field. -/
def FTy : Field → Type
  | .is_online => Option Bool
  | .firmware_version => Option Json
  | .hardware_version => Option Json
  | .state => Option RobotState
  | .clean_type => Option CleanType
  | .clean_stats => Option CleanStats
  | .battery_level => Option Json
  | .is_charging => Option Bool
  | .mop_attached => Option Bool
  | .water_level => Option WaterFlow
  | .vacuum_speed => Option Speed
  | .clean_count => Option Json
  | .cleaning_preference_enabled => Option Bool
  | .true_detect_enabled => Option Bool
  | .auto_boost_suction_enabled => Option Bool
  | .auto_empty_enabled => Option Bool
  | .lifespan => Option (List ComponentLifeSpan)
  | .total_stats => Option TotalStats

/-- Read a field of the snapshot. -/
def getF (st : VacuumState) : (f : Field) → FTy f
  | .is_online => st.is_online
  | .firmware_version => st.firmware_version
  | .hardware_version => st.hardware_version
  | .state => st.state
  | .clean_type => st.clean_type
  | .clean_stats => st.clean_stats
  | .battery_level => st.battery_level
  | .is_charging => st.is_charging
  | .mop_attached => st.mop_attached
  | .water_level => st.water_level
  | .vacuum_speed => st.vacuum_speed
  | .clean_count => st.clean_count
  | .cleaning_preference_enabled => st.cleaning_preference_enabled
  | .true_detect_enabled => st.true_detect_enabled
  | .auto_boost_suction_enabled => st.auto_boost_suction_enabled
  | .auto_empty_enabled => st.auto_empty_enabled
  | .lifespan => st.lifespan
  | .total_stats => st.total_stats

/-- Store a value into a field of the snapshot. -/
def setF (st : VacuumState) : (f : Field) → FTy f → VacuumState
  | .is_online, v => { st with is_online := v }
  | .firmware_version, v => { st with firmware_version := v }
  | .hardware_version, v => { st with hardware_version := v }
  | .state, v => { st with state := v }
  | .clean_type, v => { st with clean_type := v }
  | .clean_stats, v => { st with clean_stats := v }
  | .battery_level, v => { st with battery_level := v }
  | .is_charging, v => { st with is_charging := v }
  | .mop_attached, v => { st with mop_attached := v }
  | .water_level, v => { st with water_level := v }
  | .vacuum_speed, v => { st with vacuum_speed := v }
  | .clean_count, v => { st with clean_count := v }
  | .cleaning_preference_enabled, v =>
      { st with cleaning_preference_enabled := v }
  | .true_detect_enabled, v => { st with true_detect_enabled := v }
  | .auto_boost_suction_enabled, v =>
      { st with auto_boost_suction_enabled := v }
  | .auto_empty_enabled, v => { st with auto_empty_enabled := v }
  | .lifespan, v => { st with lifespan := v }
  | .total_stats, v => { st with total_stats := v }

/-- A snapshot together with its notification channel.  `notifs` is the
ordered log of invocations of the installed change callback
(`VacuumState._on_change`, i.e. `DeebotEntity._handle_state_change`,
which fans each invocation out synchronously to every registered
observer).  `handlerInstalled` models `_on_change is not None`; it is
False only during dataclass construction, before
`DeebotEntity.__init__` installs the callback. -/
structure Snap where
  st : VacuumState
  handlerInstalled : Bool
  notifs : List Field

/-- VacuumState.__setattr__ (entity.py lines 90-96): stores the value
unconditionally, then compares the freshly stored value with the value
being stored (a comparison that can never differ, so the debug log it
guards is dead), then — when a change callback is installed — invokes
the callback unconditionally with the field key, whether or not the
stored value changed. -/
def wr (f : Field) (v : FTy f) (s : Snap) : Snap :=
  { st := setF s.st f v
    handlerInstalled := s.handlerInstalled
    notifs := if s.handlerInstalled then s.notifs ++ [f] else s.notifs }

/-- The `water_flow_map` used by the `onWaterInfo` handler
(entity.py lines 257-263): wire amounts indexed 1 through 4. -/
def waterFlowMap1 (k : Json) : Except Unit WaterFlow :=
  match k.intKey with
  | some 1 => .ok .LOW
  | some 2 => .ok .MEDIUM
  | some 3 => .ok .HIGH
  | some 4 => .ok .ULTRA_HIGH
  | _ => .error ()

/-- The `water_flow_map` used by the `onFwBuryPoint` bd_setting handler
(entity.py lines 204-211): wire amounts indexed 0 through 3. -/
def waterFlowMap0 (k : Json) : Except Unit WaterFlow :=
  match k.intKey with
  | some 0 => .ok .LOW
  | some 1 => .ok .MEDIUM
  | some 2 => .ok .HIGH
  | some 3 => .ok .ULTRA_HIGH
  | _ => .error ()

/-- The `speed_map` used by the `onSpeed` handler (entity.py 219-225). -/
def speedMap (k : Json) : Except Unit Speed :=
  match k.intKey with
  | some 1000 => .ok .QUIET
  | some 0 => .ok .STANDARD
  | some 1 => .ok .MAX
  | some 2 => .ok .MAX_PLUS
  | _ => .error ()

/-- DeebotEntity.handle_mqtt_message (entity.py lines 152-304): dispatch
of a push-channel event by command name.  The `error` result models a
Python exception (KeyError on a missing dict key, TypeError /
JSONDecodeError from `json.loads`) propagating to the caller; because
`self.state` is mutated in place, the error carries the snapshot as
already mutated by the writes performed before the raise.  Commands the
source handles with `pass`, and unknown commands (which only log a
warning), leave the snapshot untouched. -/
def handleMqtt (command : String) (body : Json) (s : Snap) :
    Except Snap Snap :=
  match body.get "data" with
  | .error _ => .error s
  | .ok data =>
  if command = "onBattery" then
    match data.get "value" with
    | .error _ => .error s
    | .ok v => .ok (wr .battery_level (some v) s)
  else if command = "onChargeState" then
    match data.get "isCharging" with
    | .error _ => .error s
    | .ok v => .ok (wr .is_charging (some v.truthy) s)
  else if command = "onCleanCount" then
    match data.get "count" with
    | .error _ => .error s
    | .ok v => .ok (wr .clean_count (some v) s)
  else if command = "onCleanInfo_V2" then
    match data.get "state" with
    | .error _ => .error s
    | .ok dState =>
      match dState with
      | .s "clean" =>
        match data.get "cleanState" with
        | .error _ => .error s
        | .ok cleanState =>
          match cleanState.get "motionState" with
          | .error _ => .error s
          | .ok motionState =>
            match cleanState.get "content" with
            | .error _ => .error s
            | .ok content =>
              match content.get "type" with
              | .error _ => .error s
              | .ok cleanType =>
                let s :=
                  match motionState with
                  | .s "working" => wr .state (some .CLEANING) s
                  | .s "pause" => wr .state (some .PAUSED) s
                  | _ => s
                let s :=
                  match cleanType with
                  | .s "auto" => wr .clean_type (some .AUTO) s
                  | .s "spotArea" =>
                      wr .clean_type (some .SPOT_AREA) s
                  | .s "customArea" =>
                      wr .clean_type (some .CUSTOM_AREA) s
                  | _ => s
                .ok s
      | .s "idle" =>
        .ok (wr .clean_type none
              (wr .state (some .IDLE) s))
      | .s "goCharging" =>
        .ok (wr .clean_type none
              (wr .state (some .RETURNING) s))
      | _ => .ok s
  else if command = "onCleanPreference" then
    match data.get "enable" with
    | .error _ => .error s
    | .ok v =>
      .ok (wr .cleaning_preference_enabled (some v.truthy) s)
  else if command = "onFwBuryPoint" then
    match data.get "content" with
    | .error _ => .error s
    | .ok content =>
      match jsonLoads content with
      | .error _ => .error s
      | .ok cmdPayload =>
        match cmdPayload.get "rn" with
        | .error _ => .error s
        | .ok cmdRn =>
          match cmdRn with
          | .s "bd_setting" =>
            match cmdPayload.get "d" with
            | .error _ => .error s
            | .ok d1 =>
              match d1.get "body" with
              | .error _ => .error s
              | .ok d2 =>
                match d2.get "data" with
                | .error _ => .error s
                | .ok d3 =>
                  match d3.get "d_val" with
                  | .error _ => .error s
                  | .ok dValRaw =>
                    match jsonLoads dValRaw with
                    | .error _ => .error s
                    | .ok cmdData =>
                      match cmdData.get "waterAmount" with
                      | .error _ => .error s
                      | .ok wAmount =>
                        match waterFlowMap0 wAmount with
                        | .error _ => .error s
                        | .ok w =>
                          let s := wr .water_level (some w) s
                          match cmdData.get "isPressurized" with
                          | .error _ => .error s
                          | .ok ip =>
                            .ok (wr .auto_boost_suction_enabled
                                  (some ip.truthy) s)
          | _ => .ok s
  else if command = "onSpeed" then
    match data.get "speed" with
    | .error _ => .error s
    | .ok v =>
      match speedMap v with
      | .error _ => .error s
      | .ok sp => .ok (wr .vacuum_speed (some sp) s)
  else if command = "onStats" then
    match data.get "area" with
    | .error _ => .error s
    | .ok area =>
      match data.get "time" with
      | .error _ => .error s
      | .ok time =>
        match data.get "avoidCount" with
        | .error _ => .error s
        | .ok avoid =>
          match data.get "start" with
          | .error _ => .error s
          | .ok start =>
            let s := wr .clean_stats
              (some ⟨area, time, avoid, start⟩) s
            match data.get "type" with
            | .error _ => .error s
            | .ok typ =>
              match typ with
              | .s "auto" => .ok (wr .clean_type (some .AUTO) s)
              | .s "spotArea" =>
                  .ok (wr .clean_type (some .SPOT_AREA) s)
              | .s "customArea" =>
                  .ok (wr .clean_type (some .CUSTOM_AREA) s)
              | _ => .ok s
  else if command = "onTrueDetect" then
    match data.get "enable" with
    | .error _ => .error s
    | .ok v => .ok (wr .true_detect_enabled (some v.truthy) s)
  else if command = "onWaterInfo" then
    match data.get "enable" with
    | .error _ => .error s
    | .ok en =>
      let s := wr .mop_attached (some en.truthy) s
      match data.get "amount" with
      | .error _ => .error s
      | .ok amount =>
        match waterFlowMap1 amount with
        | .error _ => .error s
        | .ok w => .ok (wr .water_level (some w) s)
  else if command = "reportStats" then .ok s
  else if command = "onBreakPointStatus" then .ok s
  else if command = "onCachedMapInfo" then .ok s
  else if command ∈ ["reportMinorMap", "reportPos", "reportMapTrace",
      "reportMapSubSet"] then .ok s
  else if command = "onError" then .ok s
  else if command = "onEvt" then .ok s
  else if command = "onMajorMap" then .ok s
  else if command = "onMapSet" then .ok s
  else if command = "onMapState" then .ok s
  else if command = "onMapTrace" then .ok s
  else if command = "onMinorMap" then .ok s
  else if command = "onPos" then .ok s
  else if command = "onRelocationState" then .ok s
  else if command = "onRosNodeReady" then .ok s
  else if command = "onSched_V2" then .ok s
  else .ok s

/-- Looking a value up in an association list yields a structurally
smaller value (used for termination of the `getInfo` recursion). -/
theorem lookup_sizeOf_lt {k : String} :
    ∀ {kvs : List (String × Json)} {v : Json},
      kvs.lookup k = some v → sizeOf v < sizeOf kvs := by
  intro kvs
  induction kvs with
  | nil => intro v h; simp [List.lookup] at h
  | cons p rest ih =>
    intro v h
    obtain ⟨pk, pv⟩ := p
    by_cases hk : (k == pk) = true
    · simp only [List.lookup, hk] at h
      cases h
      simp only [List.cons.sizeOf_spec, Prod.mk.sizeOf_spec]
      omega
    · simp only [List.lookup, Bool.not_eq_true] at h
      rw [Bool.eq_false_iff.mpr hk] at h
      have := ih h
      simp only [List.cons.sizeOf_spec, Prod.mk.sizeOf_spec]
      omega

/-- A successful dict subscript yields a structurally smaller value. -/
theorem Json.get_sizeOf_lt {j v : Json} {k : String}
    (h : j.get k = .ok v) : sizeOf v < sizeOf j := by
  cases j <;> simp only [Json.get] at h <;> try cases h
  case obj kvs =>
    rcases hx : kvs.lookup k with _ | w
    · rw [hx] at h; cases h
    · rw [hx] at h
      cases h
      have := lookup_sizeOf_lt hx
      simp only [Json.obj.sizeOf_spec]
      omega

/-- The list-comprehension body of the `getLifeSpan` handler
(entity.py lines 358-361): per element the lookups `x['type']`,
`x['left']`, `x['total']` in keyword-argument order; any failure raises
before the snapshot is assigned. -/
def lifeSpanList : List Json → Except Unit (List ComponentLifeSpan)
  | [] => .ok []
  | x :: rest =>
    match x.get "type" with
    | .error _ => .error ()
    | .ok t =>
      match x.get "left" with
      | .error _ => .error ()
      | .ok l =>
        match x.get "total" with
        | .error _ => .error ()
        | .ok tot =>
          match lifeSpanList rest with
          | .error _ => .error ()
          | .ok r => .ok (⟨t, tot, l⟩ :: r)

/-- The commands `DeebotEntity.handle_command` routes through the MQTT
routines (entity.py lines 332-343). -/
def overlapCmds : List String :=
  ["getBattery", "getChargeState", "getCleanCount", "getCleanInfo_V2",
   "getCleanPreference", "getError", "getSpeed", "getStats",
   "getTrueDetect", "getWaterInfo"]

/-- Python `command.lstrip('get')`: drops leading characters drawn from
the set `{g, e, t}` (entity.py line 345). -/
def stripGet (cmd : String) : String :=
  cmd.dropWhile (fun c => c == 'g' || c == 'e' || c == 't')

mutual

/-- DeebotEntity.handle_command (entity.py lines 319-368): dispatch of a
poll-response.  First writes firmware/hardware version from the reply
header when present (a non-dict header, which would raise TypeError in
Python, is not modelled: every call site passes a dict or None); the
remainder of the function body is `handleCommandRest`. -/
def handleCommand (command : String) (resp : Json) (header : Option Json)
    (s : Snap) : Except Snap Snap :=
  let s :=
    match header with
    | none => s
    | some h =>
      match h.get "fwVer" with
      | .ok v => wr .firmware_version (some v) s
      | .error _ => s
  let s :=
    match header with
    | none => s
    | some h =>
      match h.get "hwVer" with
      | .ok v => wr .hardware_version (some v) s
      | .error _ => s
  handleCommandRest command resp s
termination_by 2 * sizeOf resp + 1
decreasing_by omega

/-- Body of handle_command after the header writes (entity.py lines
325-368): return early (warning only) when the body has no `data`
member, then dispatch on the command name: the overlapping read
commands delegate to the MQTT routine, `getInfo` recursively
re-dispatches each sub-reply through handle_command, and unknown
commands only log a warning. -/
def handleCommandRest (command : String) (resp : Json) (s : Snap) :
    Except Snap Snap :=
  match resp.pyContains "data" with
  | .error _ => .error s
  | .ok false => .ok s
  | .ok true =>
    match hget : resp.get "data" with
    | .error _ => .error s
    | .ok data =>
      if command ∈ overlapCmds then
        handleMqtt ("on" ++ stripGet command) resp s
      else if command = "getInfo" then
        match hdata : data with
        | .obj kvs => handleInfoItems kvs s
        | _ => .error s
      else if command = "getTotalStats" then
        match data.get "area" with
        | .error _ => .error s
        | .ok area =>
          match data.get "time" with
          | .error _ => .error s
          | .ok time =>
            match data.get "count" with
            | .error _ => .error s
            | .ok count =>
              .ok (wr .total_stats (some ⟨area, time, count⟩) s)
      else if command = "getLifeSpan" then
        match data.pyIter with
        | .error _ => .error s
        | .ok items =>
          match lifeSpanList items with
          | .error _ => .error s
          | .ok comps => .ok (wr .lifespan (some comps) s)
      else if command = "getCarpertPressure" then
        match data.get "enable" with
        | .error _ => .error s
        | .ok v =>
          .ok (wr .auto_boost_suction_enabled (some v.truthy) s)
      else if command = "getAutoEmpty" then
        match data.get "enable" with
        | .error _ => .error s
        | .ok v => .ok (wr .auto_empty_enabled (some v.truthy) s)
      else .ok s
termination_by 2 * sizeOf resp
decreasing_by
  have h1 := Json.get_sizeOf_lt hget
  simp only [Json.obj.sizeOf_spec] at h1
  omega

/-- The `for key, value in data.items()` loop of the `getInfo` branch
(entity.py lines 348-350), re-dispatching each sub-reply with no header. -/
def handleInfoItems : List (String × Json) → Snap → Except Snap Snap
  | [], s => .ok s
  | (_k, v) :: rest, s =>
    match handleCommand _k v none s with
    | .error s2 => .error s2
    | .ok s2 => handleInfoItems rest s2
termination_by l _ => 2 * sizeOf l + 1
decreasing_by
  · simp only [List.cons.sizeOf_spec, Prod.mk.sizeOf_spec]
    omega
  · simp only [List.cons.sizeOf_spec, Prod.mk.sizeOf_spec]
    omega

end

/-- A single field write: the field identifier and the value stored. -/
abbrev W := Sigma FTy

/-- Replay a list of writes on a snapshot through the change-notifying
setter. -/
def applyWrites (ws : List W) (s : Snap) : Snap :=
  ws.foldl (fun s w => wr w.1 w.2 s) s

/-- Interpret an extracted write trace on a snapshot.  The `error` side
carries the writes performed before the raise, matching the in-place
mutation semantics of the Python handlers. -/
def runW (x : Except (List W) (List W)) (s : Snap) : Except Snap Snap :=
  match x with
  | .ok ws => .ok (applyWrites ws s)
  | .error ws => .error (applyWrites ws s)

/-- The write trace of a push-channel event: the sequence of
(field, value) writes `handle_mqtt_message` performs for this command
and body, computed from the event data alone.  The `error` side carries
the writes performed before the raise. -/
def mqttWrites (command : String) (body : Json) :
    Except (List W) (List W) :=
  match body.get "data" with
  | .error _ => .error []
  | .ok data =>
  if command = "onBattery" then
    match data.get "value" with
    | .error _ => .error []
    | .ok v => .ok [⟨.battery_level, (some v)⟩]
  else if command = "onChargeState" then
    match data.get "isCharging" with
    | .error _ => .error []
    | .ok v => .ok [⟨.is_charging, (some v.truthy)⟩]
  else if command = "onCleanCount" then
    match data.get "count" with
    | .error _ => .error []
    | .ok v => .ok [⟨.clean_count, (some v)⟩]
  else if command = "onCleanInfo_V2" then
    match data.get "state" with
    | .error _ => .error []
    | .ok dState =>
      match dState with
      | .s "clean" =>
        match data.get "cleanState" with
        | .error _ => .error []
        | .ok cleanState =>
          match cleanState.get "motionState" with
          | .error _ => .error []
          | .ok motionState =>
            match cleanState.get "content" with
            | .error _ => .error []
            | .ok content =>
              match content.get "type" with
              | .error _ => .error []
              | .ok cleanType =>
                let ws : List W :=
                  match motionState with
                  | .s "working" => [⟨.state, (some .CLEANING)⟩]
                  | .s "pause" => [⟨.state, (some .PAUSED)⟩]
                  | _ => []
                let ws : List W :=
                  match cleanType with
                  | .s "auto" => ws ++ [⟨.clean_type, (some .AUTO)⟩]
                  | .s "spotArea" =>
                      ws ++ [⟨.clean_type, (some .SPOT_AREA)⟩]
                  | .s "customArea" =>
                      ws ++ [⟨.clean_type, (some .CUSTOM_AREA)⟩]
                  | _ => ws
                .ok ws
      | .s "idle" =>
        .ok [⟨.state, (some .IDLE)⟩, ⟨.clean_type, none⟩]
      | .s "goCharging" =>
        .ok [⟨.state, (some .RETURNING)⟩,
             ⟨.clean_type, none⟩]
      | _ => .ok []
  else if command = "onCleanPreference" then
    match data.get "enable" with
    | .error _ => .error []
    | .ok v => .ok [⟨.cleaning_preference_enabled, (some v.truthy)⟩]
  else if command = "onFwBuryPoint" then
    match data.get "content" with
    | .error _ => .error []
    | .ok content =>
      match jsonLoads content with
      | .error _ => .error []
      | .ok cmdPayload =>
        match cmdPayload.get "rn" with
        | .error _ => .error []
        | .ok cmdRn =>
          match cmdRn with
          | .s "bd_setting" =>
            match cmdPayload.get "d" with
            | .error _ => .error []
            | .ok d1 =>
              match d1.get "body" with
              | .error _ => .error []
              | .ok d2 =>
                match d2.get "data" with
                | .error _ => .error []
                | .ok d3 =>
                  match d3.get "d_val" with
                  | .error _ => .error []
                  | .ok dValRaw =>
                    match jsonLoads dValRaw with
                    | .error _ => .error []
                    | .ok cmdData =>
                      match cmdData.get "waterAmount" with
                      | .error _ => .error []
                      | .ok wAmount =>
                        match waterFlowMap0 wAmount with
                        | .error _ => .error []
                        | .ok w =>
                          match cmdData.get "isPressurized" with
                          | .error _ =>
                              .error [⟨.water_level, (some w)⟩]
                          | .ok ip =>
                            .ok [⟨.water_level, (some w)⟩,
                                 ⟨.auto_boost_suction_enabled,
                                  (some ip.truthy)⟩]
          | _ => .ok []
  else if command = "onSpeed" then
    match data.get "speed" with
    | .error _ => .error []
    | .ok v =>
      match speedMap v with
      | .error _ => .error []
      | .ok sp => .ok [⟨.vacuum_speed, (some sp)⟩]
  else if command = "onStats" then
    match data.get "area" with
    | .error _ => .error []
    | .ok area =>
      match data.get "time" with
      | .error _ => .error []
      | .ok time =>
        match data.get "avoidCount" with
        | .error _ => .error []
        | .ok avoid =>
          match data.get "start" with
          | .error _ => .error []
          | .ok start =>
            let w0 : W :=
              ⟨.clean_stats, (some ⟨area, time, avoid, start⟩)⟩
            match data.get "type" with
            | .error _ => .error [w0]
            | .ok typ =>
              match typ with
              | .s "auto" =>
                  .ok [w0, ⟨.clean_type, (some .AUTO)⟩]
              | .s "spotArea" =>
                  .ok [w0, ⟨.clean_type, (some .SPOT_AREA)⟩]
              | .s "customArea" =>
                  .ok [w0, ⟨.clean_type, (some .CUSTOM_AREA)⟩]
              | _ => .ok [w0]
  else if command = "onTrueDetect" then
    match data.get "enable" with
    | .error _ => .error []
    | .ok v => .ok [⟨.true_detect_enabled, (some v.truthy)⟩]
  else if command = "onWaterInfo" then
    match data.get "enable" with
    | .error _ => .error []
    | .ok en =>
      let w0 : W := ⟨.mop_attached, (some en.truthy)⟩
      match data.get "amount" with
      | .error _ => .error [w0]
      | .ok amount =>
        match waterFlowMap1 amount with
        | .error _ => .error [w0]
        | .ok w => .ok [w0, ⟨.water_level, (some w)⟩]
  else if command = "reportStats" then .ok []
  else if command = "onBreakPointStatus" then .ok []
  else if command = "onCachedMapInfo" then .ok []
  else if command ∈ ["reportMinorMap", "reportPos", "reportMapTrace",
      "reportMapSubSet"] then .ok []
  else if command = "onError" then .ok []
  else if command = "onEvt" then .ok []
  else if command = "onMajorMap" then .ok []
  else if command = "onMapSet" then .ok []
  else if command = "onMapState" then .ok []
  else if command = "onMapTrace" then .ok []
  else if command = "onMinorMap" then .ok []
  else if command = "onPos" then .ok []
  else if command = "onRelocationState" then .ok []
  else if command = "onRosNodeReady" then .ok []
  else if command = "onSched_V2" then .ok []
  else .ok []

/-- Replaying an appended trace splits into sequential replays. -/
theorem applyWrites_append (ws1 ws2 : List W) (s : Snap) :
    applyWrites (ws1 ++ ws2) s = applyWrites ws2 (applyWrites ws1 s) := by
  simp [applyWrites, List.foldl_append]

set_option maxHeartbeats 4000000

/-- The push-event dispatcher acts on any snapshot exactly by replaying
the write trace extracted from the event alone: its effect on the
snapshot is determined by the command and body, independent of the
snapshot it is applied to. -/
theorem handleMqtt_eq (cmd : String) (body : Json) (s : Snap) :
    handleMqtt cmd body s = runW (mqttWrites cmd body) s := by
  unfold handleMqtt mqttWrites
  split
  · rfl
  by_cases h1 : cmd = "onBattery"
  case pos => simp only [if_pos h1]; repeat first | split | rfl
  simp only [if_neg h1]
  by_cases h2 : cmd = "onChargeState"
  case pos => simp only [if_pos h2]; repeat first | split | rfl
  simp only [if_neg h2]
  by_cases h3 : cmd = "onCleanCount"
  case pos => simp only [if_pos h3]; repeat first | split | rfl
  simp only [if_neg h3]
  by_cases h4 : cmd = "onCleanInfo_V2"
  case pos => simp only [if_pos h4]; repeat first | split | rfl
  simp only [if_neg h4]
  by_cases h5 : cmd = "onCleanPreference"
  case pos => simp only [if_pos h5]; repeat first | split | rfl
  simp only [if_neg h5]
  by_cases h6 : cmd = "onFwBuryPoint"
  case pos => simp only [if_pos h6]; repeat first | split | rfl
  simp only [if_neg h6]
  by_cases h7 : cmd = "onSpeed"
  case pos => simp only [if_pos h7]; repeat first | split | rfl
  simp only [if_neg h7]
  by_cases h8 : cmd = "onStats"
  case pos => simp only [if_pos h8]; repeat first | split | rfl
  simp only [if_neg h8]
  by_cases h9 : cmd = "onTrueDetect"
  case pos => simp only [if_pos h9]; repeat first | split | rfl
  simp only [if_neg h9]
  by_cases h10 : cmd = "onWaterInfo"
  case pos => simp only [if_pos h10]; repeat first | split | rfl
  simp only [if_neg h10]
  by_cases h11 : cmd = "reportStats"
  case pos => simp only [if_pos h11]; rfl
  simp only [if_neg h11]
  by_cases h12 : cmd = "onBreakPointStatus"
  case pos => simp only [if_pos h12]; rfl
  simp only [if_neg h12]
  by_cases h13 : cmd = "onCachedMapInfo"
  case pos => simp only [if_pos h13]; rfl
  simp only [if_neg h13]
  by_cases h14 : cmd ∈ ["reportMinorMap", "reportPos", "reportMapTrace",
      "reportMapSubSet"]
  case pos => simp only [if_pos h14]; rfl
  simp only [if_neg h14]
  by_cases h15 : cmd = "onError"
  case pos => simp only [if_pos h15]; rfl
  simp only [if_neg h15]
  by_cases h16 : cmd = "onEvt"
  case pos => simp only [if_pos h16]; rfl
  simp only [if_neg h16]
  by_cases h17 : cmd = "onMajorMap"
  case pos => simp only [if_pos h17]; rfl
  simp only [if_neg h17]
  by_cases h18 : cmd = "onMapSet"
  case pos => simp only [if_pos h18]; rfl
  simp only [if_neg h18]
  by_cases h19 : cmd = "onMapState"
  case pos => simp only [if_pos h19]; rfl
  simp only [if_neg h19]
  by_cases h20 : cmd = "onMapTrace"
  case pos => simp only [if_pos h20]; rfl
  simp only [if_neg h20]
  by_cases h21 : cmd = "onMinorMap"
  case pos => simp only [if_pos h21]; rfl
  simp only [if_neg h21]
  by_cases h22 : cmd = "onPos"
  case pos => simp only [if_pos h22]; rfl
  simp only [if_neg h22]
  by_cases h23 : cmd = "onRelocationState"
  case pos => simp only [if_pos h23]; rfl
  simp only [if_neg h23]
  by_cases h24 : cmd = "onRosNodeReady"
  case pos => simp only [if_pos h24]; rfl
  simp only [if_neg h24]
  by_cases h25 : cmd = "onSched_V2"
  case pos => simp only [if_pos h25]; rfl
  simp only [if_neg h25]
  rfl

/-- Prepend already-performed writes to a write-trace result. -/
def seqW (ws : List W) : Except (List W) (List W) → Except (List W) (List W)
  | .ok ws2 => .ok (ws ++ ws2)
  | .error ws2 => .error (ws ++ ws2)

mutual

/-- The write trace of `handle_command`: the header-derived
firmware/hardware writes followed by the trace of the body. -/
def cmdWrites (command : String) (resp : Json) (header : Option Json) :
    Except (List W) (List W) :=
  let ws : List W :=
    match header with
    | none => []
    | some h =>
      match h.get "fwVer" with
      | .ok v => [⟨.firmware_version, (some v)⟩]
      | .error _ => []
  let ws : List W :=
    match header with
    | none => ws
    | some h =>
      match h.get "hwVer" with
      | .ok v => ws ++ [⟨.hardware_version, (some v)⟩]
      | .error _ => ws
  seqW ws (cmdWritesRest command resp)
termination_by 2 * sizeOf resp + 1
decreasing_by omega

/-- The write trace of the body of `handle_command` (after the header
writes), computed from the command and body alone. -/
def cmdWritesRest (command : String) (resp : Json) :
    Except (List W) (List W) :=
  match resp.pyContains "data" with
  | .error _ => .error []
  | .ok false => .ok []
  | .ok true =>
    match hget : resp.get "data" with
    | .error _ => .error []
    | .ok data =>
      if command ∈ overlapCmds then
        mqttWrites ("on" ++ stripGet command) resp
      else if command = "getInfo" then
        match hdata : data with
        | .obj kvs => infoWrites kvs
        | _ => .error []
      else if command = "getTotalStats" then
        match data.get "area" with
        | .error _ => .error []
        | .ok area =>
          match data.get "time" with
          | .error _ => .error []
          | .ok time =>
            match data.get "count" with
            | .error _ => .error []
            | .ok count =>
              .ok [⟨.total_stats, (some ⟨area, time, count⟩)⟩]
      else if command = "getLifeSpan" then
        match data.pyIter with
        | .error _ => .error []
        | .ok items =>
          match lifeSpanList items with
          | .error _ => .error []
          | .ok comps => .ok [⟨.lifespan, (some comps)⟩]
      else if command = "getCarpertPressure" then
        match data.get "enable" with
        | .error _ => .error []
        | .ok v =>
          .ok [⟨.auto_boost_suction_enabled, (some v.truthy)⟩]
      else if command = "getAutoEmpty" then
        match data.get "enable" with
        | .error _ => .error []
        | .ok v => .ok [⟨.auto_empty_enabled, (some v.truthy)⟩]
      else .ok []
termination_by 2 * sizeOf resp
decreasing_by
  have h1 := Json.get_sizeOf_lt hget
  simp only [Json.obj.sizeOf_spec] at h1
  omega

/-- The concatenated write trace of the `getInfo` sub-replies. -/
def infoWrites : List (String × Json) → Except (List W) (List W)
  | [] => .ok []
  | (_k, v) :: rest =>
    match cmdWrites _k v none with
    | .error ws => .error ws
    | .ok ws => seqW ws (infoWrites rest)
termination_by l => 2 * sizeOf l + 1
decreasing_by
  · simp only [List.cons.sizeOf_spec, Prod.mk.sizeOf_spec]
    omega
  · simp only [List.cons.sizeOf_spec, Prod.mk.sizeOf_spec]
    omega

end

/-- Interpreting a prepended trace replays the prefix first. -/
theorem runW_seqW (ws : List W) (x : Except (List W) (List W)) (s : Snap) :
    runW (seqW ws x) s = runW x (applyWrites ws s) := by
  cases x <;> simp [runW, seqW, applyWrites_append]

/-- A trace prefixed by no writes is unchanged. -/
theorem seqW_nil (x : Except (List W) (List W)) : seqW [] x = x := by
  cases x <;> simp [seqW]

/-- Every JSON value has positive size. -/
theorem Json.one_le_sizeOf (j : Json) : 1 ≤ sizeOf j := by
  cases j <;> simp_arith

/-- An association-list member is structurally smaller than the list. -/
theorem mem_sizeOf_lt {kvs : List (String × Json)} {k : String} {v : Json}
    (h : (k, v) ∈ kvs) : sizeOf v < sizeOf kvs := by
  induction kvs with
  | nil => cases h
  | cons p rest ih =>
    rcases List.mem_cons.mp h with h1 | h1
    · cases h1
      simp only [List.cons.sizeOf_spec, Prod.mk.sizeOf_spec]
      omega
    · have := ih h1
      simp only [List.cons.sizeOf_spec]
      omega

/-- With no header, `handle_command` is its body. -/
theorem handleCommand_none (cmd : String) (resp : Json) (s : Snap) :
    handleCommand cmd resp none s = handleCommandRest cmd resp s := by
  rw [handleCommand.eq_def]

/-- With no header, the `handle_command` trace is the body trace. -/
theorem cmdWrites_none (cmd : String) (resp : Json) :
    cmdWrites cmd resp none = cmdWritesRest cmd resp := by
  rw [cmdWrites.eq_def]
  exact seqW_nil _

/-- The `getInfo` loop agrees with its concatenated write trace,
provided each sub-reply dispatch does. -/
theorem handleInfoItems_eq (kvs : List (String × Json))
    (IH : ∀ k v, (k, v) ∈ kvs →
      ∀ s, handleCommand k v none s = runW (cmdWrites k v none) s) :
    ∀ s, handleInfoItems kvs s = runW (infoWrites kvs) s := by
  induction kvs with
  | nil => intro s; rw [handleInfoItems, infoWrites]; rfl
  | cons p rest ih =>
    intro s
    obtain ⟨k, v⟩ := p
    rw [handleInfoItems, infoWrites]
    rw [IH k v (List.mem_cons_self _ _) s]
    cases hc : cmdWrites k v none with
    | error ws => rfl
    | ok ws =>
      show handleInfoItems rest (applyWrites ws s) =
        runW (seqW ws (infoWrites rest)) s
      rw [runW_seqW]
      exact ih (fun k2 v2 hm => IH k2 v2 (List.mem_cons_of_mem _ hm)) _

/-- The body of the poll-response dispatcher acts on any snapshot
exactly by replaying the write trace extracted from the command and
body alone. -/
theorem handleCommandRest_eq :
    ∀ (n : Nat) (resp : Json), sizeOf resp ≤ n → ∀ (cmd : String) (s : Snap),
      handleCommandRest cmd resp s = runW (cmdWritesRest cmd resp) s := by
  intro n
  induction n with
  | zero =>
    intro resp h
    have := Json.one_le_sizeOf resp
    omega
  | succ n ih =>
    intro resp hsz cmd s
    rw [handleCommandRest.eq_def, cmdWritesRest.eq_def]
    split
    · rfl
    · rfl
    rename_i hcont
    split
    · rfl
    rename_i data hget
    by_cases hc1 : cmd ∈ overlapCmds
    case pos => simp only [if_pos hc1]; exact handleMqtt_eq _ _ _
    simp only [if_neg hc1]
    by_cases hc2 : cmd = "getInfo"
    case pos =>
      simp only [if_pos hc2]
      split
      case _ kvs hdata =>
        apply handleInfoItems_eq
        intro k v hmem s2
        have hv : sizeOf v ≤ n := by
          have h1 := Json.get_sizeOf_lt hget
          have h2 := mem_sizeOf_lt hmem
          simp only [Json.obj.sizeOf_spec] at h1
          omega
        rw [handleCommand_none, cmdWrites_none]
        exact ih v hv k s2
      all_goals rfl
    simp only [if_neg hc2]
    by_cases hc3 : cmd = "getTotalStats"
    case pos => simp only [if_pos hc3]; repeat first | split | rfl
    simp only [if_neg hc3]
    by_cases hc4 : cmd = "getLifeSpan"
    case pos => simp only [if_pos hc4]; repeat first | split | rfl
    simp only [if_neg hc4]
    by_cases hc5 : cmd = "getCarpertPressure"
    case pos => simp only [if_pos hc5]; repeat first | split | rfl
    simp only [if_neg hc5]
    by_cases hc6 : cmd = "getAutoEmpty"
    case pos => simp only [if_pos hc6]; repeat first | split | rfl
    simp only [if_neg hc6]
    rfl

/-- The poll-response dispatcher acts on any snapshot exactly by
replaying the write trace extracted from the command, body and header
alone: its effect on the snapshot is determined by the reply,
independent of the snapshot it is applied to. -/
theorem handleCommand_eq (cmd : String) (resp : Json)
    (header : Option Json) (s : Snap) :
    handleCommand cmd resp header s = runW (cmdWrites cmd resp header) s := by
  rw [handleCommand.eq_def, cmdWrites.eq_def]
  rcases header with _ | h
  · rw [seqW_nil]
    exact handleCommandRest_eq (sizeOf resp) resp (le_refl _) cmd s
  · rcases hf : h.get "fwVer" with _ | fw <;>
      rcases hh : h.get "hwVer" with _ | hw <;>
        simp only [hf, hh] <;>
          rw [runW_seqW] <;>
            first
              | exact handleCommandRest_eq (sizeOf resp) resp (le_refl _)
                  cmd _
              | (rw [seqW_nil]
                 exact handleCommandRest_eq (sizeOf resp) resp (le_refl _)
                   cmd _)

/-- Writing a field then reading it yields the written value. -/
theorem getF_setF_same (st : VacuumState) (f : Field) (v : FTy f) :
    getF (setF st f v) f = v := by
  cases f <;> rfl

/-- Writing one field leaves every other field unchanged. -/
theorem getF_setF_other (st : VacuumState) (g f : Field) (hne : g ≠ f)
    (v : FTy g) : getF (setF st g v) f = getF st f := by
  cases g <;> cases f <;> first | rfl | exact absurd rfl hne

/-- The value stored by the most recent write to a field in a trace,
if any write to it occurs. -/
def lastWrite : List W → (f : Field) → Option (FTy f)
  | [], _ => none
  | w :: rest, f =>
    match lastWrite rest f with
    | some v2 => some v2
    | none => if h : w.1 = f then some (h ▸ w.2) else none

/-- After replaying a write trace, each field holds the value of the
most recent write to it, or its previous value if the trace never
wrote it. -/
theorem getF_applyWrites (ws : List W) (s : Snap) (f : Field) :
    getF (applyWrites ws s).st f = (lastWrite ws f).getD (getF s.st f) := by
  induction ws generalizing s with
  | nil => rfl
  | cons w rest ih =>
    obtain ⟨g, v⟩ := w
    show getF (applyWrites rest (wr g v s)).st f = _
    rw [ih]
    cases hlw : lastWrite rest f with
    | some v2 => simp only [lastWrite, hlw, Option.getD_some]
    | none =>
      simp only [lastWrite, hlw]
      by_cases h : g = f
      · subst h
        rw [dif_pos rfl]
        show (getF (setF s.st g v) g) = _
        rw [getF_setF_same]
        rfl
      · rw [dif_neg h]
        show (getF (setF s.st g v) f) = _
        rw [getF_setF_other s.st g f h v]
        rfl

/-- An event fed to the reconciler: either a push-channel message
(dispatched by handle_mqtt_message) or a poll response (dispatched by
handle_command, with its optional reply header). -/
inductive Ev where
  | push (command : String) (body : Json)
  | poll (command : String) (resp : Json) (header : Option Json)

/-- Apply one event to the snapshot through its dispatcher. -/
def applyEv : Ev → Snap → Except Snap Snap
  | .push cmd body, s => handleMqtt cmd body s
  | .poll cmd resp hdr, s => handleCommand cmd resp hdr s

/-- Apply a sequence of events in order; an exception raised by any
event aborts the sequence (carrying the snapshot as mutated so far). -/
def applySeq : List Ev → Snap → Except Snap Snap
  | [], s => .ok s
  | e :: rest, s =>
    match applyEv e s with
    | .error s2 => .error s2
    | .ok s2 => applySeq rest s2

/-- The write trace of one event. -/
def evWrites : Ev → Except (List W) (List W)
  | .push cmd body => mqttWrites cmd body
  | .poll cmd resp hdr => cmdWrites cmd resp hdr

/-- The concatenated write trace of an event sequence. -/
def seqWrites : List Ev → Except (List W) (List W)
  | [] => .ok []
  | e :: rest =>
    match evWrites e with
    | .error ws => .error ws
    | .ok ws => seqW ws (seqWrites rest)

/-- Each event acts on any snapshot by replaying its write trace. -/
theorem applyEv_eq (e : Ev) (s : Snap) : applyEv e s = runW (evWrites e) s := by
  cases e with
  | push cmd body => exact handleMqtt_eq cmd body s
  | poll cmd resp hdr => exact handleCommand_eq cmd resp hdr s

/-- An event sequence acts on any snapshot by replaying its
concatenated write trace. -/
theorem applySeq_eq (evs : List Ev) :
    ∀ s, applySeq evs s = runW (seqWrites evs) s := by
  induction evs with
  | nil => intro s; rfl
  | cons e rest ih =>
    intro s
    show (match applyEv e s with
          | .error s2 => .error s2
          | .ok s2 => applySeq rest s2) = runW (seqWrites (e :: rest)) s
    rw [applyEv_eq]
    simp only [seqWrites]
    cases hc : evWrites e with
    | error ws => rfl
    | ok ws =>
      show applySeq rest (applyWrites ws s) =
        runW (seqW ws (seqWrites rest)) s
      rw [runW_seqW]
      exact ih (applyWrites ws s)

/-- C4: for every sequence of event applications (handle_mqtt_message
calls for push-origin events and handle_command calls for poll-origin
responses) that completes without raising, the stored value of each
snapshot field equals the value written by the most recent application
in the sequence that wrote that field (or its initial value if none
wrote it); and for the overlapping read commands, a poll response
(with no header) is dispatched identically to the corresponding
push-channel event, so the update applied to a field is the same
whichever channel delivered it. -/
theorem reconciler_last_writer_wins_source_agnostic :
    (∀ (evs : List Ev) (s t : Snap), applySeq evs s = .ok t →
      ∃ ws, seqWrites evs = .ok ws ∧
        ∀ f : Field, getF t.st f = (lastWrite ws f).getD (getF s.st f))
    ∧ (∀ cmd : String, cmd ∈ overlapCmds → ∀ (body : Json) (s : Snap),
        body.pyContains "data" = .ok true →
          handleCommand cmd body none s =
            handleMqtt ("on" ++ stripGet cmd) body s) := by
  constructor
  · intro evs s t ht
    rw [applySeq_eq] at ht
    cases hw : seqWrites evs with
    | error ws =>
      rw [hw] at ht
      exact absurd ht (by simp [runW])
    | ok ws =>
      rw [hw] at ht
      simp only [runW] at ht
      injection ht with ht2
      subst ht2
      exact ⟨ws, rfl, fun f => getF_applyWrites ws s f⟩
  · intro cmd hmem body s hcont
    rw [handleCommand_none, handleCommandRest.eq_def]
    simp only [hcont]
    split
    · rename_i e hg
      unfold handleMqtt
      simp only [hg]
    · rename_i data hg
      simp only [if_pos hmem]

/-- Concrete event body for the C4 witness: a battery reading of 42. -/
def c4Body : Json := .obj [("data", .obj [("value", .i 42)])]

/-- A fresh snapshot with the change callback installed and all fields unset. -/
def snap0 : Snap := { st := {}, handlerInstalled := true, notifs := [] }

/-- Expected snapshot after dispatching the battery event. -/
def c4T : Snap :=
  { st := { battery_level := some (.i 42) }
    handlerInstalled := true
    notifs := [.battery_level] }

/-- Witness for C4 at a concrete input: the one-event push sequence
writes battery_level 42, which matches the most recent write in its
trace, and getBattery dispatches like onBattery. -/
theorem reconciler_last_writer_wins_source_agnostic_witness :
    applySeq [.push "onBattery" c4Body] snap0 = .ok c4T ∧
    getF c4T.st .battery_level =
      (lastWrite [⟨.battery_level, some (.i 42)⟩] .battery_level).getD
        (getF snap0.st .battery_level) ∧
    handleCommand "getBattery" c4Body none snap0 =
      handleMqtt ("on" ++ stripGet "getBattery") c4Body snap0 := by
  obtain ⟨ws, hws, hf⟩ :=
    reconciler_last_writer_wins_source_agnostic.1
      [.push "onBattery" c4Body] snap0 c4T rfl
  have h0 : seqWrites [.push "onBattery" c4Body] =
      .ok [⟨.battery_level, some (.i 42)⟩] := rfl
  rw [h0] at hws
  injection hws with hws2
  refine ⟨rfl, ?_,
    reconciler_last_writer_wins_source_agnostic.2 "getBattery" (by decide)
      c4Body snap0 rfl⟩
  rw [hws2]
  exact hf .battery_level

/-- A snapshot holding water_level = MEDIUM, with the change callback
installed and an empty notification log. -/
def c1S : Snap :=
  { st := { water_level := some .MEDIUM }
    handlerInstalled := true
    notifs := [] }

/-- C1 counterexample: writing MEDIUM into a snapshot whose water_level
is already MEDIUM leaves the stored value unchanged, yet the setter
still invokes the change callback once — refuting the claim that no
notification is delivered for a write that stores the value already
present (the old/new comparison in `__setattr__` runs after the store
and only guards a debug log). -/
theorem setter_notifies_on_noop_write_counterexample :
    getF (wr .water_level (some .MEDIUM) c1S).st .water_level =
      getF c1S.st .water_level ∧
    (wr .water_level (some .MEDIUM) c1S).notifs = [.water_level] :=
  ⟨rfl, rfl⟩

/-- C1 amended: every write through the snapshot with a change callback
installed delivers exactly one notification carrying that field's
identifier, whether or not the newly written value differs from the
previously stored value (in particular each value-changing write
delivers exactly one). -/
theorem setter_always_notifies (f : Field) (v : FTy f) (s : Snap)
    (h : s.handlerInstalled = true) :
    (wr f v s).notifs = s.notifs ++ [f] := by
  simp [wr, h]

/-- Witness for the amended C1 at a concrete input. -/
theorem setter_always_notifies_witness :
    c1S.handlerInstalled = true ∧
    (wr .water_level (some .LOW) c1S).notifs = c1S.notifs ++ [.water_level] :=
  ⟨rfl, setter_always_notifies .water_level (some .LOW) c1S rfl⟩

/-- Body of a concrete onWaterInfo event with wire amount 2. -/
def c5BodyWater : Json :=
  .obj [("data", .obj [("enable", .i 1), ("amount", .i 2)])]

/-- Body of a concrete onFwBuryPoint bd_setting event whose nested
d_val payload carries waterAmount 1. -/
def c5BodyFw : Json :=
  .obj [("data", .obj [("content", .serialized (.obj
    [("rn", .s "bd_setting"),
     ("d", .obj [("body", .obj [("data", .obj [("d_val", .serialized (.obj
        [("waterAmount", .i 1), ("isPressurized", .i 0)]))])])])]))])]

/-- C5: an onWaterInfo event (1-based wire indexing) with amount 2 and
an onFwBuryPoint bd_setting event (0-based wire indexing) with
waterAmount 1 both store water_level = MEDIUM, from any prior
snapshot: the two wire index bases converge to the identical domain
value. -/
theorem water_flow_normalization_converges :
    ∀ s : Snap, ∃ t1 t2 : Snap,
      handleMqtt "onWaterInfo" c5BodyWater s = .ok t1 ∧
      handleMqtt "onFwBuryPoint" c5BodyFw s = .ok t2 ∧
      t1.st.water_level = some .MEDIUM ∧
      t2.st.water_level = some .MEDIUM ∧
      t1.st.water_level = t2.st.water_level := by
  intro s
  exact ⟨_, _, rfl, rfl, rfl, rfl, rfl⟩

/-- Every command name the push dispatcher has a branch for
(entity.py lines 157-301), including the explicitly ignored ones. -/
def mqttCmds : List String :=
  ["onBattery", "onChargeState", "onCleanCount", "onCleanInfo_V2",
   "onCleanPreference", "onFwBuryPoint", "onSpeed", "onStats",
   "onTrueDetect", "onWaterInfo", "reportStats", "onBreakPointStatus",
   "onCachedMapInfo", "reportMinorMap", "reportPos", "reportMapTrace",
   "reportMapSubSet", "onError", "onEvt", "onMajorMap", "onMapSet",
   "onMapState", "onMapTrace", "onMinorMap", "onPos",
   "onRelocationState", "onRosNodeReady", "onSched_V2"]

/-- Every command name the poll dispatcher has a branch for
(entity.py lines 332-365). -/
def pollCmds : List String :=
  overlapCmds ++ ["getInfo", "getTotalStats", "getLifeSpan",
    "getCarpertPressure", "getAutoEmpty"]

/-- A reply header carrying a firmware version. -/
def c6Hdr : Json := .obj [("fwVer", .s "1.7.6")]

/-- A reply body with an empty data member. -/
def c6Body : Json := .obj [("data", .obj [])]

/-- Snapshot after the header-derived firmware write. -/
def c6T : Snap :=
  { st := { firmware_version := some (.s "1.7.6") }
    handlerInstalled := true
    notifs := [.firmware_version] }

/-- C6 counterexample: dispatching a poll reply whose command name
"frobnicate" is in neither dispatch table still writes the
firmware_version field when the reply carries a header with fwVer, so
the snapshot after the call differs from the snapshot before it —
refuting the claim that such an application writes no snapshot field. -/
theorem unknown_command_counterexample :
    handleCommand "frobnicate" c6Body (some c6Hdr) snap0 = .ok c6T ∧
    c6T.st.firmware_version ≠ snap0.st.firmware_version := by
  constructor
  · rw [handleCommand.eq_def]
    simp [c6Hdr, c6Body, snap0, c6T, Json.get, Json.pyContains,
      List.lookup, handleCommandRest.eq_def, wr, setF, overlapCmds,
      stripGet]
  · simp [c6T, snap0]

/-- C6 amended: a command name in neither dispatch table raises no
error and writes no snapshot field, provided the push-channel body has
a data member and the poll reply is a dict with no header; a poll
reply with a header may still receive the source-independent
firmware/hardware-version header writes, and a push body lacking a
data member raises KeyError. -/
theorem unknown_command_no_update (cmd : String)
    (hm : cmd ∉ mqttCmds) (hp : cmd ∉ pollCmds) :
    (∀ (body d : Json) (s : Snap), body.get "data" = .ok d →
       handleMqtt cmd body s = .ok s)
    ∧ (∀ (kvs : List (String × Json)) (s : Snap),
       handleCommand cmd (.obj kvs) none s = .ok s) := by
  simp only [mqttCmds, List.mem_cons, List.not_mem_nil, or_false,
    not_or] at hm
  obtain ⟨n1, n2, n3, n4, n5, n6, n7, n8, n9, n10, n11, n12, n13, n14,
    n15, n16, n17, n18, n19, n20, n21, n22, n23, n24, n25, n26, n27,
    n28⟩ := hm
  simp only [pollCmds, overlapCmds, List.mem_cons, List.mem_append,
    List.not_mem_nil, or_false, not_or] at hp
  have hnm : cmd ∉ ["reportMinorMap", "reportPos", "reportMapTrace",
      "reportMapSubSet"] := by
    simp only [List.mem_cons, List.not_mem_nil, or_false, not_or]
    exact ⟨n14, n15, n16, n17⟩
  have hno : cmd ∉ overlapCmds := by
    simp only [overlapCmds, List.mem_cons, List.not_mem_nil, or_false,
      not_or]
    exact hp.1
  constructor
  · intro body d s hd
    unfold handleMqtt
    simp only [hd, if_neg n1, if_neg n2, if_neg n3, if_neg n4,
      if_neg n5, if_neg n6, if_neg n7, if_neg n8, if_neg n9,
      if_neg n10, if_neg n11, if_neg n12, if_neg n13, if_neg hnm,
      if_neg n18, if_neg n19, if_neg n20, if_neg n21, if_neg n22,
      if_neg n23, if_neg n24, if_neg n25, if_neg n26, if_neg n27,
      if_neg n28]
  · intro kvs s
    rw [handleCommand_none, handleCommandRest.eq_def]
    simp only [Json.pyContains]
    cases hl : kvs.lookup "data" with
    | none => simp only [hl, Option.isSome_none]
    | some d =>
      simp only [hl, Option.isSome_some, Json.get, if_neg hno,
        if_neg hp.2.1, if_neg hp.2.2.1, if_neg hp.2.2.2.1,
        if_neg hp.2.2.2.2.1, if_neg hp.2.2.2.2.2]
      split
      · rename_i a heq
        rw [hl] at heq
        simp at heq
      · rfl

/-- Witness for the amended C6 at a concrete input. -/
theorem unknown_command_no_update_witness :
    "frobnicate" ∉ mqttCmds ∧ "frobnicate" ∉ pollCmds ∧
    handleMqtt "frobnicate" c6Body snap0 = .ok snap0 ∧
    handleCommand "frobnicate" c6Body none snap0 = .ok snap0 :=
  ⟨by decide, by decide,
   (unknown_command_no_update "frobnicate" (by decide) (by decide)).1
     c6Body (.obj []) snap0 rfl,
   (unknown_command_no_update "frobnicate" (by decide) (by decide)).2
     [("data", .obj [])] snap0⟩

/-- DeviceInfo (api_client.py): the fields the subscription and entity
layer use.  `status` feeds the initial online flag. -/
structure Device where
  id : String
  dev_class : String
  resource : String
  status : Int
deriving DecidableEq

/-- Insert into a Python set modelled as an insertion-ordered
duplicate-free list: adding an element already present is a no-op. -/
def insertUnique {α : Type} [DecidableEq α] (a : α) (l : List α) :
    List α :=
  if a ∈ l then l else l ++ [a]

/-- The broker client connection (paho MQTT client): the log of topic
filters subscribed on it, in subscription order. -/
structure MqttClient where
  topics : List String
deriving DecidableEq

/-- SubscriptionClient (subscription_client.py): the registered
(device, handler) records — a Python set of tuples, modelled as an
insertion-ordered duplicate-free list — and the optional live broker
connection.  Handler callables are identified by opaque ids. -/
structure SubsClient where
  subscribers : List (Device × Nat)
  client : Option MqttClient
deriving DecidableEq

/-- The per-device topic filter built by
SubscriptionClient._subscribe_topic (subscription_client.py 124-135). -/
def topicFor (d : Device) : String :=
  "iot/atr/+/" ++ d.id ++ "/" ++ d.dev_class ++ "/" ++ d.resource ++ "/+"

/-- SubscriptionClient._subscribe_topic: issue the device's filter on
the connection. -/
def subscribeTopic (d : Device) (c : MqttClient) : MqttClient :=
  { topics := c.topics ++ [topicFor d] }

/-- SubscriptionClient._on_connect on the success path
(subscription_client.py 65-76): subscribe the topic filter of every
registered record, then the catch-all "#" filter. -/
def onConnect (subs : List (Device × Nat)) (c : MqttClient) : MqttClient :=
  let c := subs.foldl (fun c p => subscribeTopic p.1 c) c
  { topics := c.topics ++ ["#"] }

/-- SubscriptionClient._connect (subscription_client.py 35-63),
modelled on the happy path: a fresh client is created and connected,
and its on_connect callback (run synchronously in this model) issues
the subscriptions. -/
def connectC (sc : SubsClient) : SubsClient :=
  { sc with client := some (onConnect sc.subscribers ⟨[]⟩) }

/-- SubscriptionClient.subscribe (subscription_client.py 97-106): add
the record; if there is no client, connect (and return); otherwise
subscribe the device's topic.  Note the source tests
`self._client.is_connected` without calling it — the bound-method
object is always truthy — so when a client exists the topic is always
subscribed immediately. -/
def scSubscribe (d : Device) (h : Nat) (sc : SubsClient) : SubsClient :=
  let sc2 := { sc with subscribers := insertUnique (d, h) sc.subscribers }
  match sc2.client with
  | none => connectC sc2
  | some c => { sc2 with client := some (subscribeTopic d c) }

/-- SubscriptionClient.unsubscribe (subscription_client.py 108-122):
remove every record whose device id and handler match; when no records
remain, disconnect and drop the client (an AttributeError — modelled as
the error case — if there was no client).  No broker-level
unsubscription of the removed device's topic filter is ever issued. -/
def scUnsubscribe (d : Device) (h : Nat) (sc : SubsClient) :
    Except Unit SubsClient :=
  let remaining := sc.subscribers.filter
    (fun p => ¬(p.1.id = d.id ∧ p.2 = h))
  if remaining.isEmpty then
    match sc.client with
    | none => .error ()
    | some _ => .ok { subscribers := remaining, client := none }
  else .ok { sc with subscribers := remaining }

/-- Split a character list on the slash separator (same segmentation
as String.splitOn "/"). -/
def splitSlash : List Char → List (List Char)
  | [] => [[]]
  | c :: rest =>
    if c = '/' then [] :: splitSlash rest
    else
      match splitSlash rest with
      | [] => [[c]]
      | x :: xs => (c :: x) :: xs

/-- TOPIC_RE applied with re.match (subscription_client.py 14-17, 81):
a prefix match, so the topic must start with iot/atr/ followed by four
nonempty slash-free segments and a segment starting with j; trailing
text after the j is unconstrained.  Returns (command, device_id). -/
def topicMatch (topic : String) : Option (String × String) :=
  match splitSlash topic.toList with
  | p1 :: p2 :: cmd :: did :: dcls :: dres :: seg7 :: _ =>
    if p1 = "iot".toList ∧ p2 = "atr".toList ∧ cmd ≠ [] ∧ did ≠ [] ∧
        dcls ≠ [] ∧ dres ≠ [] ∧ seg7.head? = some 'j' then
      some (⟨cmd⟩, ⟨did⟩)
    else none
  | _ => none

/-- The subscriber loop of SubscriptionClient._on_message
(subscription_client.py 85-88): for each record matching the device
id, `json.loads` the payload (raising on malformed JSON), extract its
body member (raising KeyError if absent) and deliver
(command, body) to the handler. -/
def onMessageGo (did cmd : String) (payload : Json) :
    List (Device × Nat) → Except Unit (List (Nat × String × Json))
  | [] => .ok []
  | (dv, h) :: rest =>
    if dv.id = did then
      match jsonLoads payload with
      | .error _ => .error ()
      | .ok data =>
        match data.get "body" with
        | .error _ => .error ()
        | .ok body =>
          match onMessageGo did cmd payload rest with
          | .error e => .error e
          | .ok ds => .ok ((h, cmd, body) :: ds)
    else onMessageGo did cmd payload rest

/-- SubscriptionClient._on_message (subscription_client.py 78-88):
parse the topic; a topic failing the pattern is dropped silently.  The
result is the ordered list of (handler id, command, body) deliveries;
the error case models an exception propagating to the paho client
loop. -/
def onMessage (sc : SubsClient) (topic : String) (payload : Json) :
    Except Unit (List (Nat × String × Json)) :=
  match topicMatch topic with
  | none => .ok []
  | some (cmd, did) => onMessageGo did cmd payload sc.subscribers

/-- DeebotEntity (entity.py 99-112): the observer set (a Python set of
handler callables, as opaque ids), the state snapshot, the poll-loop
flag, the consecutive-failure counter, the shared subscription client,
and the number of poll threads started (one per _start_polling call). -/
structure Entity where
  device : Device
  handlerId : Nat
  subscribers : List Nat
  snap : Snap
  should_poll : Bool
  pollStarts : Nat
  err_count : Nat
  subsClient : SubsClient

/-- DeebotEntity.__init__ (entity.py 100-112): no observers, snapshot
with is_online seeded from `device.status == 1` and every other field
None, polling off, failure counter zero.  The dataclass-construction
writes happen before the change callback is installed, and the
callback-installation write itself fires before any observer can be
attached, so the notification log starts empty. -/
def entityInit (sc : SubsClient) (d : Device) (hId : Nat) : Entity :=
  { device := d
    handlerId := hId
    subscribers := []
    snap := { st := { is_online := some (decide (d.status = 1)) }
              handlerInstalled := true
              notifs := [] }
    should_poll := false
    pollStarts := 0
    err_count := 0
    subsClient := sc }

/-- DeebotEntity.subscribe (entity.py 393-401): add the handler to the
set; if the set was empty before, subscribe the entity's bound handler
with the subscription client and start the poll loop
(_start_polling: set _should_poll and spawn the poll thread). -/
def entitySubscribe (h : Nat) (e : Entity) : Entity :=
  let lenBefore := e.subscribers.length
  let subs := insertUnique h e.subscribers
  if lenBefore = 0 then
    { e with subscribers := subs
             subsClient := scSubscribe e.device e.handlerId e.subsClient
             should_poll := true
             pollStarts := e.pollStarts + 1 }
  else { e with subscribers := subs }

/-- DeebotEntity.unsubscribe (entity.py 403-410): set.remove raises
KeyError when the handler is not registered; when the last handler is
removed, stop polling (_should_poll := False, so the poll thread exits
its `while self._should_poll` loop and schedules no further cycle) and
unsubscribe from the subscription client. -/
def entityUnsubscribe (h : Nat) (e : Entity) : Except Unit Entity :=
  if h ∈ e.subscribers then
    let subs := e.subscribers.erase h
    if subs.isEmpty then
      match scUnsubscribe e.device e.handlerId e.subsClient with
      | .error _ => .error ()
      | .ok sc =>
        .ok { e with subscribers := subs
                     should_poll := false
                     subsClient := sc }
    else .ok { e with subscribers := subs }
  else .error ()

/-- DeebotEntity.exc_command (entity.py 306-317).  The underlying
ApiClient call is abstracted by its outcome: `.ok rv` for a successful
reply, `.error ()` for an ApiErrorException.  On failure the counter
is incremented, is_online is set False once the counter reaches 2, and
the exception is re-raised (the error case, carrying the updated
entity); on success the counter resets and is_online is set True. -/
def excCommand (apiResp : Except Unit Json) (e : Entity) :
    Except Entity (Json × Entity) :=
  match apiResp with
  | .error _ =>
    let ec := e.err_count + 1
    let e2 := { e with err_count := ec }
    let e3 :=
      if ec ≥ 2 then { e2 with snap := wr .is_online (some false) e2.snap }
      else e2
    .error e3
  | .ok rv =>
    .ok (rv, { e with err_count := 0
                      snap := wr .is_online (some true) e.snap })

/-- Deliveries produced by _on_message invoke the entity's bound
handle_mqtt_message when the handler id is the entity's; an exception
from the handler propagates (carrying the entity with its snapshot as
mutated so far). -/
def applyDisp : List (Nat × String × Json) → Entity → Except Entity Entity
  | [], e => .ok e
  | (h, cmd, body) :: rest, e =>
    if h = e.handlerId then
      match handleMqtt cmd body e.snap with
      | .error s2 => .error { e with snap := s2 }
      | .ok s2 => applyDisp rest { e with snap := s2 }
    else applyDisp rest e

/-- Delivery of one inbound broker message to an entity: run
_on_message on the entity's subscription client and apply the
resulting dispatches; an error is an exception reaching the paho
client loop (the entity unchanged if _on_message itself raised before
any dispatch). -/
def deliverMessage (e : Entity) (topic : String) (payload : Json) :
    Except Entity Entity :=
  match onMessage e.subsClient topic payload with
  | .error _ => .error e
  | .ok ds => applyDisp ds e

/-- A failed exc_command call increments the failure counter. -/
theorem excCommand_fail_err_count (e e1 : Entity)
    (h : excCommand (.error ()) e = .error e1) :
    e1.err_count = e.err_count + 1 := by
  simp only [excCommand] at h
  by_cases hc : e.err_count + 1 ≥ 2
  · rw [if_pos hc] at h
    injection h with he
    subst he
    rfl
  · rw [if_neg hc] at h
    injection h with he
    subst he
    rfl

/-- A failed exc_command call at the threshold stores is_online =
false. -/
theorem excCommand_fail_online_set (e e1 : Entity)
    (hc : e.err_count + 1 ≥ 2)
    (h : excCommand (.error ()) e = .error e1) :
    e1.snap.st.is_online = some false := by
  simp only [excCommand] at h
  rw [if_pos hc] at h
  injection h with he
  subst he
  rfl

/-- A failed exc_command call below the threshold leaves is_online
unchanged. -/
theorem excCommand_fail_online_keep (e e1 : Entity)
    (hc : ¬e.err_count + 1 ≥ 2)
    (h : excCommand (.error ()) e = .error e1) :
    e1.snap.st.is_online = e.snap.st.is_online := by
  simp only [excCommand] at h
  rw [if_neg hc] at h
  injection h with he
  subst he
  rfl

/-- C2: two consecutive ApiError results from exc_command store
is_online = false (the consecutive-failure counter reaching the
threshold 2); any successful call stores is_online = true and resets
the counter to zero; and a single isolated failure after a success
(counter zero) re-raises the error without changing is_online. -/
theorem exc_command_offline_hysteresis :
    (∀ e e1 e2 : Entity,
       excCommand (.error ()) e = .error e1 →
       excCommand (.error ()) e1 = .error e2 →
       e2.snap.st.is_online = some false)
    ∧ (∀ (e e2 : Entity) (rv out : Json),
       excCommand (.ok rv) e = .ok (out, e2) →
       e2.snap.st.is_online = some true ∧ e2.err_count = 0)
    ∧ (∀ e e1 : Entity, e.err_count = 0 →
       excCommand (.error ()) e = .error e1 →
       e1.snap.st.is_online = e.snap.st.is_online ∧ e1.err_count = 1) := by
  refine ⟨?_, ?_, ?_⟩
  · intro e e1 e2 h1 h2
    have hcnt := excCommand_fail_err_count e e1 h1
    exact excCommand_fail_online_set e1 e2 (by omega) h2
  · intro e e2 rv out h
    simp only [excCommand] at h
    injection h with hp
    injection hp with hrv he2
    subst he2
    exact ⟨rfl, rfl⟩
  · intro e e1 hz h
    refine ⟨excCommand_fail_online_keep e e1 (by omega) h, ?_⟩
    rw [excCommand_fail_err_count e e1 h, hz]

/-- A concrete device (status 1: online at listing time). -/
def dev0 : Device := ⟨"did1", "cls0", "res0", 1⟩

/-- A subscription client with no records and no connection. -/
def scEmpty : SubsClient := ⟨[], none⟩

/-- A freshly constructed entity for dev0. -/
def e0 : Entity := entityInit scEmpty dev0 0

/-- e0 after one failed call. -/
def e0f1 : Entity := { e0 with err_count := 1 }

/-- e0 after two consecutive failed calls. -/
def e0f2 : Entity :=
  { e0 with err_count := 2
            snap := wr .is_online (some false) e0.snap }

/-- e0 after a successful call. -/
def e0s : Entity :=
  { e0 with err_count := 0
            snap := wr .is_online (some true) e0.snap }

/-- Witness for C2 at a concrete entity: the two-failure, the success
and the isolated-failure scenarios. -/
theorem exc_command_offline_hysteresis_witness :
    excCommand (.error ()) e0 = .error e0f1 ∧
    excCommand (.error ()) e0f1 = .error e0f2 ∧
    e0f2.snap.st.is_online = some false ∧
    excCommand (.ok .null) e0 = .ok (.null, e0s) ∧
    (e0s.snap.st.is_online = some true ∧ e0s.err_count = 0) ∧
    e0.err_count = 0 ∧
    (e0f1.snap.st.is_online = e0.snap.st.is_online ∧
      e0f1.err_count = 1) :=
  ⟨rfl, rfl,
   exc_command_offline_hysteresis.1 e0 e0f1 e0f2 rfl rfl,
   rfl,
   exc_command_offline_hysteresis.2.1 e0 e0s .null .null rfl,
   rfl,
   exc_command_offline_hysteresis.2.2 e0 e0f1 rfl rfl⟩

/-- On a malformed payload the _on_message subscriber loop either
delivers nothing (no record matches) or raises from json.loads before
any delivery. -/
theorem onMessageGo_malformed (did cmd : String) :
    ∀ subs, onMessageGo did cmd .malformed subs = .ok [] ∨
      onMessageGo did cmd .malformed subs = .error () := by
  intro subs
  induction subs with
  | nil => left; rfl
  | cons p rest ih =>
    obtain ⟨dv, h⟩ := p
    by_cases hd : dv.id = did
    · right
      simp only [onMessageGo, if_pos hd]
      rfl
    · simp only [onMessageGo, if_neg hd]
      exact ih

/-- An entity with one observer and one registered subscription
record whose broker connection is live. -/
def c3E : Entity :=
  { device := dev0
    handlerId := 7
    subscribers := [9]
    snap := snap0
    should_poll := true
    pollStarts := 1
    err_count := 0
    subsClient := ⟨[(dev0, 7)], some ⟨[topicFor dev0, "#"]⟩⟩ }

/-- A topic matching TOPIC_RE for dev0. -/
def c3Topic : String := "iot/atr/onBattery/did1/cls0/res0/j"

/-- C3 counterexample: a broker message whose topic matches the
pattern but whose body is not valid JSON raises out of _on_message to
the broker client loop — `json.loads` runs with no exception handler
around it — refuting the claim that such a message is dropped with no
exception raised to the caller of the message handler.  (No snapshot
field is altered and no handler is invoked: the error carries the
entity unchanged.) -/
theorem malformed_message_raises_counterexample :
    deliverMessage c3E c3Topic .malformed = .error c3E := by rfl

/-- C3 amended: a message whose topic fails the expected pattern is
dropped — no exception and no snapshot change; a message whose body is
not valid JSON never invokes a handler and never alters any snapshot
field, but when a subscription record matches the message's device id
the JSON decode error propagates to the caller of the message handler
instead of being swallowed. -/
theorem broker_message_drop_behavior :
    (∀ (e : Entity) (topic : String) (payload : Json),
       topicMatch topic = none →
       deliverMessage e topic payload = .ok e)
    ∧ (∀ (e : Entity) (topic : String),
       deliverMessage e topic .malformed = .ok e ∨
       deliverMessage e topic .malformed = .error e) := by
  constructor
  · intro e topic payload h
    unfold deliverMessage onMessage
    rw [h]
    rfl
  · intro e topic
    unfold deliverMessage onMessage
    cases hm : topicMatch topic with
    | none => left; rfl
    | some p =>
      obtain ⟨cmd, did⟩ := p
      rcases onMessageGo_malformed did cmd e.subsClient.subscribers
        with h | h
      · left
        show ((match onMessageGo did cmd Json.malformed
                e.subsClient.subscribers with
              | .error _ => .error e
              | .ok ds => applyDisp ds e : Except Entity Entity)) = .ok e
        rw [h]
        rfl
      · right
        show ((match onMessageGo did cmd Json.malformed
                e.subsClient.subscribers with
              | .error _ => .error e
              | .ok ds => applyDisp ds e : Except Entity Entity)) =
          .error e
        rw [h]

/-- Witness for the amended C3 at concrete inputs. -/
theorem broker_message_drop_behavior_witness :
    topicMatch "bogus" = none ∧
    deliverMessage c3E "bogus" .malformed = .ok c3E ∧
    (deliverMessage c3E c3Topic .malformed = .ok c3E ∨
     deliverMessage c3E c3Topic .malformed = .error c3E) :=
  ⟨rfl, broker_message_drop_behavior.1 c3E "bogus" .malformed rfl,
   broker_message_drop_behavior.2 c3E c3Topic⟩

/-- With no registered records, _on_message delivers nothing. -/
theorem onMessage_no_subscribers (sc : SubsClient)
    (hs : sc.subscribers = []) (topic : String) (payload : Json) :
    onMessage sc topic payload = .ok [] := by
  unfold onMessage
  cases topicMatch topic with
  | none => rfl
  | some p =>
    obtain ⟨cmd, did⟩ := p
    rw [hs]
    rfl

/-- C7: starting from an entity with zero observers on a fresh
subscription client, attaching the first observer issues exactly one
broker subscription for the device (the client's topic log becomes the
device's filter plus the catch-all) and starts exactly one poll loop;
attaching a second, distinct observer for the same device changes
neither the subscription client nor the poll-thread count. -/
theorem first_observer_activates_second_does_not
    (e : Entity) (h1 h2 : Nat) (hne : h2 ≠ h1)
    (hsub : e.subscribers = [])
    (hsc : e.subsClient = ⟨[], none⟩) :
    (entitySubscribe h1 e).pollStarts = e.pollStarts + 1 ∧
    (entitySubscribe h1 e).should_poll = true ∧
    (entitySubscribe h1 e).subsClient.client =
      some ⟨[topicFor e.device, "#"]⟩ ∧
    (entitySubscribe h2 (entitySubscribe h1 e)).pollStarts =
      (entitySubscribe h1 e).pollStarts ∧
    (entitySubscribe h2 (entitySubscribe h1 e)).subsClient =
      (entitySubscribe h1 e).subsClient := by
  simp [entitySubscribe, hsub, hsc, scSubscribe, insertUnique,
    connectC, onConnect, subscribeTopic]

/-- C8: detaching the only remaining observer stops the poll loop (the
`while self._should_poll` guard goes false, so no further cycle is
scheduled), removes the device's subscription record and tears down
the connection (it was the only record), and any subsequent incoming
broker message is discarded: no handler is invoked and the entity —
snapshot included — is returned unchanged. -/
theorem last_observer_detach_stops
    (e : Entity) (h : Nat) (c : MqttClient)
    (hsub : e.subscribers = [h])
    (hrec : e.subsClient.subscribers = [(e.device, e.handlerId)])
    (hc : e.subsClient.client = some c) :
    ∃ e2, entityUnsubscribe h e = .ok e2 ∧
      e2.should_poll = false ∧
      e2.subsClient.subscribers = [] ∧
      e2.subsClient.client = none ∧
      (∀ (topic : String) (payload : Json),
        deliverMessage e2 topic payload = .ok e2) := by
  have hmem : h ∈ e.subscribers := by
    rw [hsub]; exact List.mem_singleton.mpr rfl
  have herase : e.subscribers.erase h = [] := by
    rw [hsub]; simp [List.erase_cons_head]
  have hsc2 : scUnsubscribe e.device e.handlerId e.subsClient =
      .ok ⟨[], none⟩ := by
    simp [scUnsubscribe, hrec, hc]
  refine ⟨{ e with subscribers := []
                   should_poll := false
                   subsClient := ⟨[], none⟩ }, ?_, rfl, rfl, rfl, ?_⟩
  · simp [entityUnsubscribe, hmem, herase, hsc2]
  · intro topic payload
    unfold deliverMessage
    rw [onMessage_no_subscribers _ rfl]
    rfl

/-- A second device sharing the broker connection. -/
def dev1 : Device := ⟨"did2", "cls0", "res0", 1⟩

/-- The topic log after dev0 and dev1 both subscribed. -/
def c9Topics : List String := [topicFor dev0, "#", topicFor dev1]

/-- C9 counterexample: with dev0 and dev1 both subscribed on the same
connection, unsubscribing dev0 removes its record but leaves the
broker connection's topic list unchanged — dev0's topic filter is
still present, because SubscriptionClient.unsubscribe never issues a
broker-level unsubscription — refuting the claim that unsubscribe
removes the device's topic filter from the broker connection. -/
theorem unsubscribe_keeps_topic_filter_counterexample :
    scUnsubscribe dev0 1 (scSubscribe dev1 2 (scSubscribe dev0 1 scEmpty)) =
      .ok ⟨[(dev1, 2)], some ⟨c9Topics⟩⟩ ∧
    topicFor dev0 ∈ c9Topics := by
  exact ⟨rfl, List.mem_cons_self _ _⟩

/-- C9 amended: unsubscribe removes exactly the records matching the
device id and handler; when records remain, the connection — topic
filters included, so also the removed device's filter — is left
untouched; when no records remain, the whole connection is torn
down. -/
theorem sc_unsubscribe_behavior (d : Device) (h : Nat)
    (sc sc2 : SubsClient) (hok : scUnsubscribe d h sc = .ok sc2) :
    sc2.subscribers = sc.subscribers.filter
      (fun p => ¬(p.1.id = d.id ∧ p.2 = h)) ∧
    (sc2.subscribers = [] → sc2.client = none) ∧
    (sc2.subscribers ≠ [] → sc2.client = sc.client) := by
  simp only [scUnsubscribe] at hok
  by_cases he : (sc.subscribers.filter
      (fun p => ¬(p.1.id = d.id ∧ p.2 = h))).isEmpty
  · rw [if_pos he] at hok
    cases hcl : sc.client with
    | none => rw [hcl] at hok; cases hok
    | some c =>
      rw [hcl] at hok
      injection hok with h2
      subst h2
      refine ⟨rfl, fun _ => rfl, fun hne => ?_⟩
      exact absurd (List.isEmpty_iff.mp he) hne
  · rw [if_neg he] at hok
    injection hok with h2
    subst h2
    refine ⟨rfl, fun hnil => ?_, fun _ => rfl⟩
    exact absurd (List.isEmpty_iff.mpr hnil) he

/-- Witness for the amended C9 at concrete inputs. -/
theorem sc_unsubscribe_behavior_witness :
    scUnsubscribe dev0 1 ⟨[(dev0, 1), (dev1, 2)], some ⟨c9Topics⟩⟩ =
      .ok ⟨[(dev1, 2)], some ⟨c9Topics⟩⟩ ∧
    (([(dev0, 1), (dev1, 2)] : List (Device × Nat)).filter
        (fun p => ¬(p.1.id = dev0.id ∧ p.2 = 1)) = [(dev1, 2)]) ∧
    (([(dev1, 2)] : List (Device × Nat)) ≠ [] →
      (some (⟨c9Topics⟩ : MqttClient)) = some ⟨c9Topics⟩) := by
  refine ⟨rfl, ?_, ?_⟩
  · exact (sc_unsubscribe_behavior dev0 1
      ⟨[(dev0, 1), (dev1, 2)], some ⟨c9Topics⟩⟩
      ⟨[(dev1, 2)], some ⟨c9Topics⟩⟩ rfl).1.symm
  · exact (sc_unsubscribe_behavior dev0 1
      ⟨[(dev0, 1), (dev1, 2)], some ⟨c9Topics⟩⟩
      ⟨[(dev1, 2)], some ⟨c9Topics⟩⟩ rfl).2.2

/-- Attaching an observer never changes the entity identity fields. -/
theorem entitySubscribe_empty (g : Nat) (e1 : Entity)
    (he : e1.subscribers = []) :
    entitySubscribe g e1 =
      { e1 with subscribers := [g]
                subsClient := scSubscribe e1.device e1.handlerId
                  e1.subsClient
                should_poll := true
                pollStarts := e1.pollStarts + 1 } := by
  unfold entitySubscribe
  rw [if_pos (by rw [he]; rfl)]
  simp [he, insertUnique]

/-- Attaching an observer to an entity that already has one only
updates the observer set. -/
theorem entitySubscribe_nonempty (g : Nat) (e1 : Entity)
    (hne : e1.subscribers ≠ []) :
    entitySubscribe g e1 =
      { e1 with subscribers := insertUnique g e1.subscribers } := by
  unfold entitySubscribe
  rw [if_neg (fun hl => hne (List.length_eq_zero.mp hl))]

/-- C10: attaching the same handler twice to an entity with zero
observers leaves exactly one registration (the observer set
deduplicates by handler identity), so one detach empties the registry,
stops the poll loop and removes the broker subscription record,
tearing down the connection. -/
theorem observer_dedup_single_detach
    (e : Entity) (h : Nat)
    (hsub : e.subscribers = [])
    (hsc : e.subsClient = ⟨[], none⟩) :
    (entitySubscribe h (entitySubscribe h e)).subscribers = [h] ∧
    (∃ e3, entityUnsubscribe h (entitySubscribe h (entitySubscribe h e)) =
        .ok e3 ∧
      e3.subscribers = [] ∧ e3.should_poll = false ∧
      e3.subsClient.subscribers = [] ∧ e3.subsClient.client = none) := by
  have e2def : entitySubscribe h (entitySubscribe h e) =
      { e with subscribers := [h]
               subsClient := scSubscribe e.device e.handlerId e.subsClient
               should_poll := true
               pollStarts := e.pollStarts + 1 } := by
    rw [entitySubscribe_empty h e hsub,
      entitySubscribe_nonempty h _ (by simp)]
    simp [insertUnique]
  have hscsub : scSubscribe e.device e.handlerId e.subsClient =
      ⟨[(e.device, e.handlerId)], some ⟨[topicFor e.device, "#"]⟩⟩ := by
    rw [hsc]
    simp [scSubscribe, insertUnique, connectC, onConnect, subscribeTopic]
  rw [e2def, hscsub]
  refine ⟨rfl, ⟨{ e with subscribers := []
                         should_poll := false
                         pollStarts := e.pollStarts + 1
                         subsClient := ⟨[], none⟩ }, ?_, rfl, rfl, rfl, rfl⟩⟩
  simp [entityUnsubscribe, scUnsubscribe]

/-- Witness for C7 at a concrete entity: handlers 5 then 6. -/
theorem first_observer_activates_second_does_not_witness :
    (6 : Nat) ≠ 5 ∧ e0.subscribers = [] ∧ e0.subsClient = ⟨[], none⟩ ∧
    ((entitySubscribe 5 e0).pollStarts = e0.pollStarts + 1 ∧
     (entitySubscribe 5 e0).should_poll = true ∧
     (entitySubscribe 5 e0).subsClient.client =
       some ⟨[topicFor e0.device, "#"]⟩ ∧
     (entitySubscribe 6 (entitySubscribe 5 e0)).pollStarts =
       (entitySubscribe 5 e0).pollStarts ∧
     (entitySubscribe 6 (entitySubscribe 5 e0)).subsClient =
       (entitySubscribe 5 e0).subsClient) :=
  ⟨by decide, rfl, rfl,
   first_observer_activates_second_does_not e0 5 6 (by decide) rfl rfl⟩

/-- Witness for C8 at a concrete entity with one observer. -/
theorem last_observer_detach_stops_witness :
    c3E.subscribers = [9] ∧
    c3E.subsClient.subscribers = [(c3E.device, c3E.handlerId)] ∧
    c3E.subsClient.client = some ⟨[topicFor dev0, "#"]⟩ ∧
    (∃ e2, entityUnsubscribe 9 c3E = .ok e2 ∧
      e2.should_poll = false ∧
      e2.subsClient.subscribers = [] ∧
      e2.subsClient.client = none ∧
      (∀ (topic : String) (payload : Json),
        deliverMessage e2 topic payload = .ok e2)) :=
  ⟨rfl, rfl, rfl,
   last_observer_detach_stops c3E 9 ⟨[topicFor dev0, "#"]⟩ rfl rfl rfl⟩

/-- Witness for C10 at a concrete entity: handler 5 attached twice. -/
theorem observer_dedup_single_detach_witness :
    e0.subscribers = [] ∧ e0.subsClient = ⟨[], none⟩ ∧
    ((entitySubscribe 5 (entitySubscribe 5 e0)).subscribers = [5] ∧
     (∃ e3, entityUnsubscribe 5
         (entitySubscribe 5 (entitySubscribe 5 e0)) = .ok e3 ∧
       e3.subscribers = [] ∧ e3.should_poll = false ∧
       e3.subsClient.subscribers = [] ∧ e3.subsClient.client = none)) :=
  ⟨rfl, rfl, observer_dedup_single_detach e0 5 rfl rfl⟩

end DeebotT8
